import Mathlib

/-!
Shallow embedding of the iono propagation-and-link-budget engine:
the data model of src/core/contracts.ts, the helpers of src/core/geometry.ts
and src/core/linkBudget.ts, the HF solver of src/propagation/hfModel.ts and
the V/UHF solver of src/propagation/vuhfModel.ts, followed by theorems that
settle the specification claims against these definitions.

JavaScript numbers are modelled as real numbers.  The two places where the
source produces a non-finite number are modelled by the predicates that
characterise them exactly:
the ground-wave model returns Number.POSITIVE_INFINITY precisely when
groundwave_applicable fails, and the Hata model returns NaN precisely when
hata_applicable fails; callers of both test Number.isFinite / Number.isNaN,
which the embedding renders as branches on those predicates.
-/

noncomputable section

open scoped Classical

namespace Iono

/-- Base-10 logarithm, the embedding of Math.log10. -/
def log10 (x : ℝ) : ℝ := Real.log x / Real.log 10

/- -----------------------------------------------------------------
   Data model (src/core/contracts.ts)
   ----------------------------------------------------------------- -/

inductive EnvironmentClass
  | open_
  | rural
  | urban
  | forest
  | water
  | mountain
deriving DecidableEq

inductive GroundClass
  | sea
  | wet
  | dry
deriving DecidableEq

inductive PropMode
  | auto
  | ground
  | sky
deriving DecidableEq

inductive PathMode
  | IONO
  | NVIS
  | GROUND
  | LOS
  | NLOS
  | DIFFRACTION
  | BLOCKED
deriving DecidableEq

structure Tx where
  lat : ℝ
  lon : ℝ
  power_W : ℝ
  gain_dBi : ℝ
  cable_dB : ℝ
  height_m : ℝ
  frequency_MHz : ℝ

structure Rx where
  gain_dBi : ℝ
  cable_dB : ℝ
  height_m : ℝ
  bandwidth_Hz : ℝ
  noiseFigure_dB : ℝ
  requiredSNR_dB : ℝ

structure Env where
  environment : EnvironmentClass
  kFactor : ℝ
  groundClass : GroundClass
  foliageDepth_m : Option ℝ

structure HFContext where
  foF2_MHz : ℝ
  NVIS_enabled : Bool
  propagationMode : PropMode

structure Context where
  distance_km : ℝ
  hf : Option HFContext

structure PathResult where
  loss_dB : ℝ
  mode : PathMode
deriving DecidableEq

structure LinkResult where
  pr_dBm : ℝ
  sensitivity_dBm : ℝ
  margin_dB : ℝ
  mode : PathMode

/- -----------------------------------------------------------------
   Geometry helpers (src/core/geometry.ts)
   ----------------------------------------------------------------- -/

/-- Wavelength in meters from frequency in MHz. -/
def lambda_m (frequency_MHz : ℝ) : ℝ :=
  2.99792458e8 / (max frequency_MHz 0.000001 * 1e6)

/-- Radio horizon distance in kilometers. -/
def horizon_km (h_t_m h_r_m kFactor : ℝ) : ℝ :=
  Real.sqrt (2 * kFactor * 6371 * (h_t_m / 1000)) +
    Real.sqrt (2 * kFactor * 6371 * (h_r_m / 1000))

/- -----------------------------------------------------------------
   Link budget (src/core/linkBudget.ts)
   ----------------------------------------------------------------- -/

/-- Effective isotropic radiated power in dBm. -/
def eirp_dBm (power_W txGain_dBi txCable_dB : ℝ) : ℝ :=
  10 * log10 (power_W * 1000) + txGain_dBi - txCable_dB

/-- Thermal noise floor in dBm. -/
def noiseFloor_dBm (bandwidth_Hz noiseFigure_dB : ℝ) : ℝ :=
  -174 + 10 * log10 (max bandwidth_Hz 1) + noiseFigure_dB

/-- Receiver sensitivity in dBm. -/
def sensitivity_dBm (rx : Rx) : ℝ :=
  noiseFloor_dBm rx.bandwidth_Hz rx.noiseFigure_dB + rx.requiredSNR_dB

/-- Received power in dBm; the source defaults miscLoss_dB to 0. -/
def receivedPower_dBm (EIRP_dBm rxGain_dBi rxCable_dB pathLoss_dB miscLoss_dB : ℝ) : ℝ :=
  EIRP_dBm + rxGain_dBi - (pathLoss_dB + miscLoss_dB) - rxCable_dB

/- -----------------------------------------------------------------
   HF model (src/propagation/hfModel.ts)
   ----------------------------------------------------------------- -/

namespace hfModel

/-- Free-space path loss in dB; d in km, f in MHz. -/
def fspl_dB (d_km f_MHz : ℝ) : ℝ :=
  32.44 + 20 * log10 (max d_km 1e-6) + 20 * log10 (max f_MHz 1e-6)

/-- Clamp utility. -/
def clamp (x lo hi : ℝ) : ℝ := max lo (min hi x)

/-- Excess-loss slope per ground class. -/
def kg_by_ground : GroundClass → ℝ
  | .sea => 0.02
  | .wet => 0.05
  | .dry => 0.08

/-- Ground-wave validity gate for the simplified model. -/
def groundwave_applicable (f_MHz d_km : ℝ) : Prop :=
  f_MHz ≤ 10 ∧ d_km ≤ 300

/-- Ground-wave loss.  The source returns Number.POSITIVE_INFINITY when
groundwave_applicable fails and every caller tests Number.isFinite; the
embedding keeps the finite formula and the callers branch on
groundwave_applicable instead. -/
def groundwave_loss_dB (d_km f_MHz : ℝ) (ground : GroundClass) : ℝ :=
  fspl_dB d_km f_MHz + kg_by_ground ground * d_km * Real.sqrt (max f_MHz 0.0001)

/-- Virtual F2 reflection height. -/
def H_F2_KM : ℝ := 300

/-- Conservative min launch angle for skip estimation. -/
def MIN_TAKEOFF_DEG : ℝ := 10

/-- Takeoff and elevation angle in radians from ground range and virtual height. -/
def takeoff_angle_rad_from_range (d_km h_km : ℝ) : ℝ :=
  Real.arctan (max d_km 1e-6 / (2 * max h_km 1e-3))

/-- MUF via secant law in MHz. -/
def muf_secant_MHz (foF2_MHz alpha_rad : ℝ) : ℝ :=
  foF2_MHz * (1 / Real.cos alpha_rad)

/-- First-hop skip distance in km for a minimum useful takeoff angle. -/
def first_hop_skip_km (h_km minAlphaDeg : ℝ) : ℝ :=
  2 * h_km * Real.tan (clamp minAlphaDeg 1 30 * Real.pi / 180)

/-- Per-hop absorption surrogate in dB. -/
def absorption_per_hop_dB (f_MHz alpha_rad : ℝ) : ℝ :=
  10 * max f_MHz 0.1 ^ (-2 : ℤ) * (1 / Real.cos alpha_rad)

/-- The sky-wave hop count: hops = max(1, ceil(d / max(hop_range, 1e-3)))
with hop_range = 2 * H_F2 * tan(alpha). -/
def skywaveHops (d_km : ℝ) : ℤ :=
  max 1 ⌈d_km / max (2 * H_F2_KM * Real.tan (takeoff_angle_rad_from_range d_km H_F2_KM)) 1e-3⌉

/-- Sky-wave loss with MUF and skip-zone checks. -/
def skywave_loss_dB (d_km f_MHz foF2_MHz : ℝ) : PathResult :=
  if 30 < f_MHz ∨ d_km ≤ 50 ∨ foF2_MHz ≤ 0 then ⟨1e6, .BLOCKED⟩
  else if muf_secant_MHz foF2_MHz (takeoff_angle_rad_from_range d_km H_F2_KM) < f_MHz then
    ⟨1e6, .BLOCKED⟩
  else if d_km < first_hop_skip_km H_F2_KM MIN_TAKEOFF_DEG then ⟨1e6, .BLOCKED⟩
  else if 2 < skywaveHops d_km then ⟨1e6, .BLOCKED⟩
  else
    let alpha := takeoff_angle_rad_from_range d_km H_F2_KM
    let slant_per_hop_km := 2 * H_F2_KM / max (Real.sin alpha) 1e-6
    let L_fs_per_hop := fspl_dB slant_per_hop_km f_MHz
    let A_absorb := absorption_per_hop_dB f_MHz alpha
    ⟨(skywaveHops d_km : ℝ) * (L_fs_per_hop + A_absorb) +
        (if 1 < skywaveHops d_km then ((skywaveHops d_km : ℝ) - 1) * 3 else 0),
      .IONO⟩

/-- E-layer height. -/
def H_E_KM : ℝ := 110

/-- Fixed NVIS elevation angle in degrees. -/
def NVIS_ALPHA_DEG : ℝ := 80

/-- NVIS loss with its own MUF gate. -/
def nvis_loss_dB (d_km f_MHz foF2_MHz : ℝ) : PathResult :=
  if 7 < f_MHz ∨ 500 < d_km ∨ foF2_MHz ≤ 0 then ⟨1e6, .BLOCKED⟩
  else if muf_secant_MHz foF2_MHz (NVIS_ALPHA_DEG * Real.pi / 180) < f_MHz then
    ⟨1e6, .BLOCKED⟩
  else
    let alpha := NVIS_ALPHA_DEG * Real.pi / 180
    let slant_km := 2 * H_E_KM / max (Real.sin alpha) 1e-6
    ⟨fspl_dB slant_km f_MHz + 15 * max f_MHz 0.1 ^ (-2 : ℤ) * (1 / Real.cos alpha), .NVIS⟩

/-- Public HF entry point.  Early returns of the source become an if-chain;
the Number.isFinite guards on sky and NVIS results always hold for
non-BLOCKED results (their formulas are finite reals) and the ground-wave
Number.isFinite test is exactly groundwave_applicable. -/
def solveHF (tx : Tx) (_rx : Rx) (env : Env) (ctx : Context) : PathResult :=
  let f := tx.frequency_MHz
  let d := max ctx.distance_km 0.001
  let mode := ctx.hf.map HFContext.propagationMode
  let foF2 := (ctx.hf.map HFContext.foF2_MHz).getD 0
  let nvis := (ctx.hf.map HFContext.NVIS_enabled).getD false
  if mode = some PropMode.ground then
    if groundwave_applicable f d then ⟨groundwave_loss_dB d f env.groundClass, .GROUND⟩
    else ⟨1e6, .BLOCKED⟩
  else if mode = some PropMode.sky then
    if nvis = true ∧ f ≤ 7 ∧ d ≤ 500 ∧ 0 < foF2 ∧ (nvis_loss_dB d f foF2).mode ≠ .BLOCKED then
      nvis_loss_dB d f foF2
    else if 0 < foF2 ∧ (skywave_loss_dB d f foF2).mode ≠ .BLOCKED then
      skywave_loss_dB d f foF2
    else ⟨1e6, .BLOCKED⟩
  else
    if nvis = true ∧ f ≤ 7 ∧ d ≤ 500 ∧ 0 < foF2 ∧ (nvis_loss_dB d f foF2).mode ≠ .BLOCKED then
      nvis_loss_dB d f foF2
    else if 0 < foF2 ∧ (skywave_loss_dB d f foF2).mode ≠ .BLOCKED then
      skywave_loss_dB d f foF2
    else if groundwave_applicable f d then ⟨groundwave_loss_dB d f env.groundClass, .GROUND⟩
    else ⟨1e6, .BLOCKED⟩

end hfModel

/- -----------------------------------------------------------------
   V/UHF model (src/propagation/vuhfModel.ts)
   ----------------------------------------------------------------- -/

namespace vuhfModel

/-- Free-space path loss in dB; d in km, f in MHz. -/
def fspl_dB (d_km f_MHz : ℝ) : ℝ :=
  20 * log10 (max d_km 1e-6) + 20 * log10 (max f_MHz 1e-6) + 32.44

/-- Two-slope breakpoint distance in meters. -/
def d_bp_m (f_MHz h_t_m h_r_m : ℝ) : ℝ :=
  max (4 * h_t_m * h_r_m / max (lambda_m f_MHz) 1e-6) 1

/-- Two-slope path loss model: FSPL up to the breakpoint, then a 40 dB/decade
slope. -/
def twoSlope_dB (d_km f_MHz h_t_m h_r_m : ℝ) : ℝ :=
  let d_m := max (d_km * 1000) 1
  let dbp := d_bp_m f_MHz h_t_m h_r_m
  if d_m ≤ dbp then fspl_dB (d_m / 1000) f_MHz
  else fspl_dB (dbp / 1000) f_MHz + 40 * log10 (d_m / dbp)

/-- The Hata model returns NaN in the source exactly when the frequency is
outside the 150 to 2000 MHz window; this predicate characterises the
non-NaN case. -/
def hata_applicable (f_MHz : ℝ) : Prop :=
  150 ≤ f_MHz ∧ f_MHz ≤ 2000

/-- Hata and COST-231 path loss; heights and distance clamped to the
documented validity ranges, frequency used unclamped. -/
def hata_dB (d_km f_MHz h_t_m h_r_m : ℝ) (env : EnvironmentClass) : ℝ :=
  let f := f_MHz
  let ht := min (max h_t_m 30) 200
  let hr := min (max h_r_m 1) 10
  let d := min (max d_km 1) 20
  let a_hr :=
    if 300 ≤ f ∧ f ≤ 1500 ∧ env = .urban then 8.29 * log10 (1.54 * hr) ^ 2 - 1.1
    else (1.1 * log10 f - 0.7) * hr - (1.56 * log10 f - 0.8)
  let L := 69.55 + 26.16 * log10 f - 13.82 * log10 ht - a_hr +
      (44.9 - 6.55 * log10 ht) * log10 d
  let L := L + (if env = .urban then 3 else 0)
  L + (if env = .open_ ∨ env = .rural ∨ env = .water ∨ env = .mountain then
        -(4.78 * log10 f ^ 2 - 18.33 * log10 f + 40.94)
      else 0)

/-- Log-distance path loss; the source defaults d0_km to 0.1. -/
def logDistance_dB (d_km f_MHz n d0_km : ℝ) : ℝ :=
  fspl_dB (max d0_km 1e-4) f_MHz + 10 * n * log10 (max d_km 1e-6 / d0_km)

/-- Weissberger foliage loss.  The source guard (!depth_m || depth_m <= 0)
is the first branch. -/
def foliage_dB (f_MHz depth_m : ℝ) : ℝ :=
  if depth_m ≤ 0 then 0
  else
    let f := max f_MHz 1
    if depth_m ≤ 14 then 0.45 * f ^ (0.284 : ℝ) * depth_m
    else 1.33 * f ^ (0.284 : ℝ) * min depth_m 400 ^ (0.588 : ℝ)

/-- Environment class to log-distance path loss exponent. -/
def envToN : EnvironmentClass → ℝ
  | .open_ => 2.1
  | .rural => 2.4
  | .urban => 3.5
  | .forest => 3.8
  | .water => 2.0
  | .mountain => 2.6

/-- The LOS candidate of solveVuhf at distance d. -/
def vuhfLlos (tx : Tx) (rx : Rx) (d : ℝ) : ℝ :=
  twoSlope_dB d tx.frequency_MHz tx.height_m rx.height_m

/-- The median model of solveVuhf at distance d: Hata when applicable,
log-distance fallback otherwise (the source tests Number.isNaN, which is
exactly the negation of hata_applicable). -/
def vuhfLmed (tx : Tx) (rx : Rx) (env : Env) (d : ℝ) : ℝ :=
  if hata_applicable tx.frequency_MHz then
    hata_dB d tx.frequency_MHz tx.height_m rx.height_m env.environment
  else logDistance_dB d tx.frequency_MHz (envToN env.environment) 0.1

/-- The optional foliage adder applied on the median path. -/
def foliageAdd (env : Env) (f_MHz : ℝ) : ℝ :=
  match env.foliageDepth_m with
  | none => 0
  | some dep => if env.environment = .forest ∧ 0 < dep then foliage_dB f_MHz dep else 0

/-- The NLOS candidate of solveVuhf at distance d, before the delta shift. -/
def vuhfLnlos (tx : Tx) (rx : Rx) (env : Env) (d : ℝ) : ℝ :=
  vuhfLmed tx rx env d + foliageAdd env tx.frequency_MHz

/-- The radio horizon used for the handover. -/
def vuhfDH (tx : Tx) (rx : Rx) (env : Env) : ℝ :=
  horizon_km tx.height_m rx.height_m env.kFactor

/-- The constant offset that makes the NLOS curve meet the LOS curve at the
handover distance. -/
def vuhfDelta (tx : Tx) (rx : Rx) (env : Env) : ℝ :=
  vuhfLlos tx rx (max (vuhfDH tx rx env) 0.001) -
    vuhfLnlos tx rx env (max (vuhfDH tx rx env) 0.001)

/-- The blend weight across plus and minus five percent of the horizon. -/
def vuhfBlend (tx : Tx) (rx : Rx) (env : Env) (d : ℝ) : ℝ :=
  let dH := vuhfDH tx rx env
  let eps : ℝ := 0.05
  let dLo := dH * (1 - eps)
  let dHi := dH * (1 + eps)
  if d ≤ dLo then 0 else if dHi ≤ d then 1 else (d - dLo) / max (dHi - dLo) 1e-6

/-- The blended V/UHF loss at distance d. -/
def vuhfLoss (tx : Tx) (rx : Rx) (env : Env) (d : ℝ) : ℝ :=
  (1 - vuhfBlend tx rx env d) * vuhfLlos tx rx d +
    vuhfBlend tx rx env d * (vuhfLnlos tx rx env d + vuhfDelta tx rx env)

/-- Public V/UHF entry point. -/
def solveVuhf (tx : Tx) (rx : Rx) (env : Env) (ctx : Context) : PathResult :=
  let d := max ctx.distance_km 0.001
  ⟨vuhfLoss tx rx env d, if vuhfBlend tx rx env d < 0.5 then .LOS else .NLOS⟩

end vuhfModel

/- -----------------------------------------------------------------
   Dispatcher (src/propagation, predictPath and predictLink)
   ----------------------------------------------------------------- -/

/-- Route by frequency: below 30 MHz to the HF solver, else to V/UHF. -/
def predictPath (tx : Tx) (rx : Rx) (env : Env) (ctx : Context) : PathResult :=
  if tx.frequency_MHz < 30 then hfModel.solveHF tx rx env ctx
  else vuhfModel.solveVuhf tx rx env ctx

/-- Path plus link budget. -/
def predictLink (tx : Tx) (rx : Rx) (env : Env) (ctx : Context) : LinkResult :=
  let path := predictPath tx rx env ctx
  let EIRP := eirp_dBm tx.power_W tx.gain_dBi tx.cable_dB
  let pr := receivedPower_dBm EIRP rx.gain_dBi rx.cable_dB path.loss_dB 0
  let sens := sensitivity_dBm rx
  ⟨pr, sens, pr - sens, path.mode⟩

/- -----------------------------------------------------------------
   Shared helper lemmas
   ----------------------------------------------------------------- -/

lemma log10_one : log10 1 = 0 := by simp [log10]

lemma cos_takeoff_pos (d h : ℝ) :
    0 < Real.cos (hfModel.takeoff_angle_rad_from_range d h) :=
  Real.cos_arctan_pos _

lemma nvis_alpha_lt : hfModel.NVIS_ALPHA_DEG * Real.pi / 180 < Real.pi / 2 := by
  unfold hfModel.NVIS_ALPHA_DEG
  linarith [Real.pi_pos]

lemma cos_nvis_pos : 0 < Real.cos (hfModel.NVIS_ALPHA_DEG * Real.pi / 180) := by
  refine Real.cos_pos_of_mem_Ioo ⟨?_, nvis_alpha_lt⟩
  unfold hfModel.NVIS_ALPHA_DEG
  linarith [Real.pi_pos]

lemma clamp_min_takeoff : hfModel.clamp hfModel.MIN_TAKEOFF_DEG 1 30 = 10 := by
  unfold hfModel.clamp hfModel.MIN_TAKEOFF_DEG
  norm_num

lemma first_hop_skip_val :
    hfModel.first_hop_skip_km hfModel.H_F2_KM hfModel.MIN_TAKEOFF_DEG =
      600 * Real.tan (10 * Real.pi / 180) := by
  unfold hfModel.first_hop_skip_km
  rw [clamp_min_takeoff]
  unfold hfModel.H_F2_KM
  ring_nf

lemma skip_gt_100 :
    100 < hfModel.first_hop_skip_km hfModel.H_F2_KM hfModel.MIN_TAKEOFF_DEG := by
  rw [first_hop_skip_val]
  have h1 : 10 * Real.pi / 180 < Real.tan (10 * Real.pi / 180) :=
    Real.lt_tan (by linarith [Real.pi_pos]) (by linarith [Real.pi_pos])
  nlinarith [Real.pi_gt_three]

lemma skip_lt_600 :
    hfModel.first_hop_skip_km hfModel.H_F2_KM hfModel.MIN_TAKEOFF_DEG < 600 := by
  rw [first_hop_skip_val]
  have h1 : Real.tan (10 * Real.pi / 180) < Real.tan (Real.pi / 4) :=
    Real.tan_lt_tan_of_nonneg_of_lt_pi_div_two (by positivity)
      (by linarith [Real.pi_pos]) (by linarith [Real.pi_pos])
  rw [Real.tan_pi_div_four] at h1
  linarith

lemma skywave_hop_range (d : ℝ) (hd : 1e-6 ≤ d) :
    2 * hfModel.H_F2_KM *
      Real.tan (hfModel.takeoff_angle_rad_from_range d hfModel.H_F2_KM) = d := by
  unfold hfModel.takeoff_angle_rad_from_range hfModel.H_F2_KM
  rw [max_eq_left hd, (by norm_num : max (300 : ℝ) 1e-3 = 300), Real.tan_arctan]
  ring

lemma skywaveHops_eq_one (d : ℝ) (hd : 50 < d) : hfModel.skywaveHops d = 1 := by
  unfold hfModel.skywaveHops
  rw [skywave_hop_range d (by linarith), max_eq_left (by linarith : (1e-3 : ℝ) ≤ d),
    div_self (by linarith : d ≠ 0)]
  norm_num

lemma skywave_blocked_or_IONO (d f foF2 : ℝ) :
    hfModel.skywave_loss_dB d f foF2 = ⟨1e6, .BLOCKED⟩ ∨
      (hfModel.skywave_loss_dB d f foF2).mode = .IONO := by
  unfold hfModel.skywave_loss_dB
  split_ifs <;> simp

lemma nvis_blocked_or_NVIS (d f foF2 : ℝ) :
    hfModel.nvis_loss_dB d f foF2 = ⟨1e6, .BLOCKED⟩ ∨
      (hfModel.nvis_loss_dB d f foF2).mode = .NVIS := by
  unfold hfModel.nvis_loss_dB
  split_ifs <;> simp

lemma skywave_blocked_of_short (d f foF2 : ℝ)
    (h : d ≤ 50 ∨ d < hfModel.first_hop_skip_km hfModel.H_F2_KM hfModel.MIN_TAKEOFF_DEG) :
    hfModel.skywave_loss_dB d f foF2 = ⟨1e6, .BLOCKED⟩ := by
  unfold hfModel.skywave_loss_dB
  rcases h with h | h
  · rw [if_pos (Or.inr (Or.inl h))]
  · split_ifs <;> rfl

lemma skywave_notBlocked_iff (d f foF2 : ℝ) :
    (hfModel.skywave_loss_dB d f foF2).mode ≠ .BLOCKED ↔
      (f ≤ 30 ∧ 50 < d ∧ 0 < foF2 ∧
        f ≤ hfModel.muf_secant_MHz foF2
              (hfModel.takeoff_angle_rad_from_range d hfModel.H_F2_KM) ∧
        hfModel.first_hop_skip_km hfModel.H_F2_KM hfModel.MIN_TAKEOFF_DEG ≤ d ∧
        hfModel.skywaveHops d ≤ 2) := by
  unfold hfModel.skywave_loss_dB
  split_ifs with h1 h2 h3 h4 h5
  · constructor
    · intro h
      exact absurd rfl h
    · rintro ⟨ha, hb, hc, -⟩
      rcases h1 with h | h | h <;> linarith
  · constructor
    · intro h
      exact absurd rfl h
    · rintro ⟨-, -, -, hm, -⟩
      exact absurd hm (not_le.mpr h2)
  · constructor
    · intro h
      exact absurd rfl h
    · rintro ⟨-, -, -, -, hs, -⟩
      exact absurd hs (not_le.mpr h3)
  · constructor
    · intro h
      exact absurd rfl h
    · rintro ⟨-, -, -, -, -, hh⟩
      exact absurd hh (not_le.mpr h4)
  · push_neg at h1
    constructor
    · intro _
      exact ⟨h1.1, h1.2.1, h1.2.2, not_lt.mp h2, not_lt.mp h3, not_lt.mp h4⟩
    · intro _
      simp
  · push_neg at h1
    constructor
    · intro _
      exact ⟨h1.1, h1.2.1, h1.2.2, not_lt.mp h2, not_lt.mp h3, not_lt.mp h4⟩
    · intro _
      simp

lemma nvis_notBlocked_iff (d f foF2 : ℝ) :
    (hfModel.nvis_loss_dB d f foF2).mode ≠ .BLOCKED ↔
      (f ≤ 7 ∧ d ≤ 500 ∧ 0 < foF2 ∧
        f ≤ hfModel.muf_secant_MHz foF2 (hfModel.NVIS_ALPHA_DEG * Real.pi / 180)) := by
  unfold hfModel.nvis_loss_dB
  split_ifs with h1 h2
  · constructor
    · intro h
      exact absurd rfl h
    · rintro ⟨ha, hb, hc, -⟩
      rcases h1 with h | h | h <;> linarith
  · constructor
    · intro h
      exact absurd rfl h
    · rintro ⟨-, -, -, hm⟩
      exact absurd hm (not_le.mpr h2)
  · push_neg at h1
    constructor
    · intro _
      exact ⟨h1.1, h1.2.1, h1.2.2, not_lt.mp h2⟩
    · intro _
      simp

lemma skywave_IONO_iff (d f foF2 : ℝ) :
    (hfModel.skywave_loss_dB d f foF2).mode = .IONO ↔
      (hfModel.skywave_loss_dB d f foF2).mode ≠ .BLOCKED := by
  rcases skywave_blocked_or_IONO d f foF2 with h | h
  · rw [h]
    simp
  · simp [h]

lemma nvis_NVIS_iff (d f foF2 : ℝ) :
    (hfModel.nvis_loss_dB d f foF2).mode = .NVIS ↔
      (hfModel.nvis_loss_dB d f foF2).mode ≠ .BLOCKED := by
  rcases nvis_blocked_or_NVIS d f foF2 with h | h
  · rw [h]
    simp
  · simp [h]

/- -----------------------------------------------------------------
   Claim theorems
   ----------------------------------------------------------------- -/

/-- C6: for identical frequency and distance in the ground-wave domain, the
HF ground-wave losses are strictly ordered by ground class:
loss over sea < loss over wet ground < loss over dry ground. -/
theorem claim6_ground_ordering (d f : ℝ) (hd0 : 0 < d) (hd : d ≤ 300)
    (hf0 : 0 < f) (hf : f ≤ 10) :
    hfModel.groundwave_loss_dB d f .sea < hfModel.groundwave_loss_dB d f .wet ∧
      hfModel.groundwave_loss_dB d f .wet < hfModel.groundwave_loss_dB d f .dry := by
  unfold hfModel.groundwave_loss_dB hfModel.kg_by_ground
  have hs : 0 < Real.sqrt (max f 0.0001) :=
    Real.sqrt_pos.mpr (lt_max_of_lt_right (by norm_num))
  constructor <;> nlinarith [mul_pos hd0 hs]

/-- Witness for C6 at distance 100 km and frequency 7 MHz. -/
theorem claim6_witness :
    (0 : ℝ) < 100 ∧ (100 : ℝ) ≤ 300 ∧ (0 : ℝ) < 7 ∧ (7 : ℝ) ≤ 10 ∧
      (hfModel.groundwave_loss_dB 100 7 .sea < hfModel.groundwave_loss_dB 100 7 .wet ∧
        hfModel.groundwave_loss_dB 100 7 .wet < hfModel.groundwave_loss_dB 100 7 .dry) :=
  ⟨by norm_num, by norm_num, by norm_num, by norm_num,
    claim6_ground_ordering 100 7 (by norm_num) (by norm_num) (by norm_num) (by norm_num)⟩

/-- C8: predictLink routes to the HF solver exactly when the transmitter
frequency is below 30 MHz and to the V/UHF solver otherwise, computes the
received power from EIRP, receiver gain, path loss and receiver cable loss,
takes sensitivity from the noise floor plus required SNR, sets the margin to
exactly received power minus sensitivity with no clamping, and passes the
mode tag through unchanged. -/
theorem claim8_dispatcher (tx : Tx) (rx : Rx) (env : Env) (ctx : Context) :
    predictPath tx rx env ctx =
      (if tx.frequency_MHz < 30 then hfModel.solveHF tx rx env ctx
       else vuhfModel.solveVuhf tx rx env ctx) ∧
    (predictLink tx rx env ctx).pr_dBm =
      receivedPower_dBm (eirp_dBm tx.power_W tx.gain_dBi tx.cable_dB) rx.gain_dBi
        rx.cable_dB (predictPath tx rx env ctx).loss_dB 0 ∧
    (predictLink tx rx env ctx).sensitivity_dBm =
      noiseFloor_dBm rx.bandwidth_Hz rx.noiseFigure_dB + rx.requiredSNR_dB ∧
    (predictLink tx rx env ctx).margin_dB =
      (predictLink tx rx env ctx).pr_dBm - (predictLink tx rx env ctx).sensitivity_dBm ∧
    (predictLink tx rx env ctx).mode = (predictPath tx rx env ctx).mode :=
  ⟨rfl, rfl, rfl, rfl, rfl⟩

/-- C4: the code derives the takeoff angle geometrically from the full ground
range, so the hop ground range equals the distance, the hop count is exactly
one on the whole sky-wave domain, the ground-reflection penalty is never added,
and every non-BLOCKED sky-wave loss is a single hop free-space loss at the
slant distance plus the absorption surrogate. -/
theorem claim4_single_hop (d f foF2 : ℝ) (hd : 50 < d) :
    2 * hfModel.H_F2_KM *
        Real.tan (hfModel.takeoff_angle_rad_from_range d hfModel.H_F2_KM) = d ∧
    hfModel.skywaveHops d = 1 ∧
    ((hfModel.skywave_loss_dB d f foF2).mode ≠ .BLOCKED →
      (hfModel.skywave_loss_dB d f foF2).loss_dB =
        hfModel.fspl_dB
            (2 * hfModel.H_F2_KM /
              max (Real.sin (hfModel.takeoff_angle_rad_from_range d hfModel.H_F2_KM)) 1e-6)
            f +
          hfModel.absorption_per_hop_dB f
            (hfModel.takeoff_angle_rad_from_range d hfModel.H_F2_KM)) := by
  refine ⟨skywave_hop_range d (by linarith), skywaveHops_eq_one d hd, ?_⟩
  intro hmode
  unfold hfModel.skywave_loss_dB at hmode ⊢
  split_ifs at hmode ⊢ <;>
    first
      | exact absurd rfl hmode
      | (simp only [skywaveHops_eq_one d hd]; norm_num)

/-- Witness for C4 at 1000 km, 7 MHz, foF2 8 MHz. -/
theorem claim4_witness :
    (50 : ℝ) < 1000 ∧
      (2 * hfModel.H_F2_KM *
          Real.tan (hfModel.takeoff_angle_rad_from_range 1000 hfModel.H_F2_KM) = 1000 ∧
        hfModel.skywaveHops 1000 = 1 ∧
        ((hfModel.skywave_loss_dB 1000 7 8).mode ≠ .BLOCKED →
          (hfModel.skywave_loss_dB 1000 7 8).loss_dB =
            hfModel.fspl_dB
                (2 * hfModel.H_F2_KM /
                  max (Real.sin (hfModel.takeoff_angle_rad_from_range 1000 hfModel.H_F2_KM))
                    1e-6)
                7 +
              hfModel.absorption_per_hop_dB 7
                (hfModel.takeoff_angle_rad_from_range 1000 hfModel.H_F2_KM))) :=
  ⟨by norm_num, claim4_single_hop 1000 7 8 (by norm_num)⟩

/-- C7: the HF sky-wave and NVIS outcomes are monotone in foF2 — a
non-BLOCKED result never flips back to BLOCKED when foF2 increases — and,
with the other gates passing, the result is IONO (respectively NVIS)
exactly when the frequency is at most foF2 times the secant of the
takeoff angle. -/
theorem claim7_muf_monotone (d f foF2 foF2' : ℝ) (h0 : 0 < foF2) (hle : foF2 ≤ foF2') :
    ((hfModel.skywave_loss_dB d f foF2).mode ≠ .BLOCKED →
      (hfModel.skywave_loss_dB d f foF2').mode ≠ .BLOCKED) ∧
    ((hfModel.nvis_loss_dB d f foF2).mode ≠ .BLOCKED →
      (hfModel.nvis_loss_dB d f foF2').mode ≠ .BLOCKED) ∧
    (f ≤ 30 → 50 < d →
      hfModel.first_hop_skip_km hfModel.H_F2_KM hfModel.MIN_TAKEOFF_DEG ≤ d →
      ((hfModel.skywave_loss_dB d f foF2).mode = .IONO ↔
        f ≤ hfModel.muf_secant_MHz foF2
              (hfModel.takeoff_angle_rad_from_range d hfModel.H_F2_KM))) ∧
    (f ≤ 7 → d ≤ 500 →
      ((hfModel.nvis_loss_dB d f foF2).mode = .NVIS ↔
        f ≤ hfModel.muf_secant_MHz foF2 (hfModel.NVIS_ALPHA_DEG * Real.pi / 180))) := by
  have hsec : 0 ≤ 1 / Real.cos (hfModel.takeoff_angle_rad_from_range d hfModel.H_F2_KM) :=
    le_of_lt (one_div_pos.mpr (cos_takeoff_pos d hfModel.H_F2_KM))
  have hsecN : 0 ≤ 1 / Real.cos (hfModel.NVIS_ALPHA_DEG * Real.pi / 180) :=
    le_of_lt (one_div_pos.mpr cos_nvis_pos)
  refine ⟨?_, ?_, ?_, ?_⟩
  · intro h
    rw [skywave_notBlocked_iff] at h ⊢
    obtain ⟨ha, hb, hc, hm, hs, hh⟩ := h
    refine ⟨ha, hb, lt_of_lt_of_le hc hle, le_trans hm ?_, hs, hh⟩
    exact mul_le_mul_of_nonneg_right hle hsec
  · intro h
    rw [nvis_notBlocked_iff] at h ⊢
    obtain ⟨ha, hb, hc, hm⟩ := h
    exact ⟨ha, hb, lt_of_lt_of_le hc hle, le_trans hm (mul_le_mul_of_nonneg_right hle hsecN)⟩
  · intro hf30 hd hskip
    rw [skywave_IONO_iff, skywave_notBlocked_iff]
    constructor
    · rintro ⟨-, -, -, hm, -⟩
      exact hm
    · intro hm
      refine ⟨hf30, hd, h0, hm, hskip, ?_⟩
      rw [skywaveHops_eq_one d hd]
      norm_num
  · intro hf7 hd500
    rw [nvis_NVIS_iff, nvis_notBlocked_iff]
    constructor
    · rintro ⟨-, -, -, hm⟩
      exact hm
    · intro hm
      exact ⟨hf7, hd500, h0, hm⟩

/-- Witness for C7 at distance 200 km, frequency 7 MHz, foF2 rising from
5 to 9 MHz. -/
theorem claim7_witness :
    (0 : ℝ) < 5 ∧ (5 : ℝ) ≤ 9 ∧
      (((hfModel.skywave_loss_dB 200 7 5).mode ≠ .BLOCKED →
          (hfModel.skywave_loss_dB 200 7 9).mode ≠ .BLOCKED) ∧
        ((hfModel.nvis_loss_dB 200 7 5).mode ≠ .BLOCKED →
          (hfModel.nvis_loss_dB 200 7 9).mode ≠ .BLOCKED) ∧
        ((7 : ℝ) ≤ 30 → (50 : ℝ) < 200 →
          hfModel.first_hop_skip_km hfModel.H_F2_KM hfModel.MIN_TAKEOFF_DEG ≤ 200 →
          ((hfModel.skywave_loss_dB 200 7 5).mode = .IONO ↔
            (7 : ℝ) ≤ hfModel.muf_secant_MHz 5
                (hfModel.takeoff_angle_rad_from_range 200 hfModel.H_F2_KM))) ∧
        ((7 : ℝ) ≤ 7 → (200 : ℝ) ≤ 500 →
          ((hfModel.nvis_loss_dB 200 7 5).mode = .NVIS ↔
            (7 : ℝ) ≤ hfModel.muf_secant_MHz 5 (hfModel.NVIS_ALPHA_DEG * Real.pi / 180)))) :=
  ⟨by norm_num, by norm_num, claim7_muf_monotone 200 7 5 9 (by norm_num) (by norm_num)⟩

/-- C9: the HF solver always returns a mode in the closed set GROUND, IONO,
NVIS, BLOCKED, a BLOCKED result always carries the large 1e6 dB sentinel
loss, and the V/UHF solver always returns LOS or NLOS; no input raises and
every loss is a real number. -/
theorem claim9_total_sentinel (tx : Tx) (rx : Rx) (env : Env) (ctx : Context) :
    ((hfModel.solveHF tx rx env ctx).mode = .GROUND ∨
      (hfModel.solveHF tx rx env ctx).mode = .IONO ∨
      (hfModel.solveHF tx rx env ctx).mode = .NVIS ∨
      (hfModel.solveHF tx rx env ctx).mode = .BLOCKED) ∧
    ((hfModel.solveHF tx rx env ctx).mode = .BLOCKED →
      (hfModel.solveHF tx rx env ctx).loss_dB = 1e6) ∧
    ((vuhfModel.solveVuhf tx rx env ctx).mode = .LOS ∨
      (vuhfModel.solveVuhf tx rx env ctx).mode = .NLOS) := by
  refine ⟨?_, ?_, ?_⟩
  · simp only [hfModel.solveHF]
    split_ifs <;>
      first
        | simp
        | (rcases nvis_blocked_or_NVIS (max ctx.distance_km 0.001) tx.frequency_MHz
              ((ctx.hf.map HFContext.foF2_MHz).getD 0) with h | h <;> simp [h])
        | (rcases skywave_blocked_or_IONO (max ctx.distance_km 0.001) tx.frequency_MHz
              ((ctx.hf.map HFContext.foF2_MHz).getD 0) with h | h <;> simp [h])
  · simp only [hfModel.solveHF]
    split_ifs <;> intro hB <;> first | rfl | simp_all
  · simp only [vuhfModel.solveVuhf]
    split_ifs <;> simp

/-- Witness for C9: an HF input whose result is BLOCKED (29 MHz, 400 km,
no HF context) indeed carries the 1e6 dB sentinel. -/
theorem claim9_witness :
    (hfModel.solveHF ⟨0, 0, 10, 5, 1, 30, 29⟩ ⟨0, 0, 1.5, 20000, 5, 10⟩
        ⟨.rural, 1.33, .dry, none⟩ ⟨400, none⟩).loss_dB = 1e6 := by
  have hmode : (hfModel.solveHF ⟨0, 0, 10, 5, 1, 30, 29⟩ ⟨0, 0, 1.5, 20000, 5, 10⟩
      ⟨.rural, 1.33, .dry, none⟩ ⟨400, none⟩).mode = .BLOCKED := by
    simp only [hfModel.solveHF, Option.map_none', Option.getD_none]
    norm_num [hfModel.groundwave_applicable]
  exact (claim9_total_sentinel ⟨0, 0, 10, 5, 1, 30, 29⟩ ⟨0, 0, 1.5, 20000, 5, 10⟩
    ⟨.rural, 1.33, .dry, none⟩ ⟨400, none⟩).2.1 hmode

/-- C10: the sky-wave solver is BLOCKED at or below 50 km and below the
first-hop skip distance 2 * 300 * tan(10 degrees), so in auto mode with
NVIS disabled no distance below the skip distance ever yields mode IONO. -/
theorem claim10_skip_zone :
    (∀ d f foF2 : ℝ,
        d ≤ 50 ∨ d < hfModel.first_hop_skip_km hfModel.H_F2_KM hfModel.MIN_TAKEOFF_DEG →
        hfModel.skywave_loss_dB d f foF2 = ⟨1e6, .BLOCKED⟩) ∧
    (∀ (tx : Tx) (rx : Rx) (env : Env) (hfc : HFContext) (raw : ℝ),
        hfc.propagationMode = .auto → hfc.NVIS_enabled = false →
        raw < hfModel.first_hop_skip_km hfModel.H_F2_KM hfModel.MIN_TAKEOFF_DEG →
        (hfModel.solveHF tx rx env ⟨raw, some hfc⟩).mode ≠ .IONO) := by
  refine ⟨fun d f foF2 h => skywave_blocked_of_short d f foF2 h, ?_⟩
  intro tx rx env hfc raw hmode hnvis hraw
  have hdlt : max raw 0.001 <
      hfModel.first_hop_skip_km hfModel.H_F2_KM hfModel.MIN_TAKEOFF_DEG :=
    max_lt hraw (by linarith [skip_gt_100])
  have hblock := skywave_blocked_of_short (max raw 0.001) tx.frequency_MHz hfc.foF2_MHz
    (Or.inr hdlt)
  simp only [hfModel.solveHF, Option.map_some', Option.getD_some, hmode, hnvis, hblock]
  norm_num
  split_ifs <;> simp

/-- Witness for C10: at 60 km (inside the skip zone) the sky-wave solver is
BLOCKED and the auto-mode HF solver does not return IONO. -/
theorem claim10_witness :
    hfModel.skywave_loss_dB 60 7 6 = ⟨1e6, .BLOCKED⟩ ∧
      (hfModel.solveHF ⟨0, 0, 10, 5, 1, 30, 7⟩ ⟨0, 0, 1.5, 20000, 5, 10⟩
          ⟨.rural, 1.33, .dry, none⟩ ⟨60, some ⟨6, false, .auto⟩⟩).mode ≠ .IONO :=
  ⟨claim10_skip_zone.1 60 7 6 (Or.inr (by linarith [skip_gt_100])),
    claim10_skip_zone.2 ⟨0, 0, 10, 5, 1, 30, 7⟩ ⟨0, 0, 1.5, 20000, 5, 10⟩
      ⟨.rural, 1.33, .dry, none⟩ ⟨6, false, .auto⟩ 60 rfl rfl
      (by linarith [skip_gt_100])⟩

/- -----------------------------------------------------------------
   The spec scenario of C1: 7.1 MHz, foF2 6 MHz, NVIS disabled, 1000 km,
   auto mode.
   ----------------------------------------------------------------- -/

def scenarioTx : Tx := ⟨0, 0, 10, 5, 1, 30, 7.1⟩

def scenarioRx : Rx := ⟨0, 0, 1.5, 20000, 5, 10⟩

def scenarioEnv : Env := ⟨.urban, 1.33, .dry, none⟩

def scenarioCtx : Context := ⟨1000, some ⟨6, false, .auto⟩⟩

lemma skywave_scenario_IONO : (hfModel.skywave_loss_dB 1000 7.1 6).mode = .IONO := by
  rw [skywave_IONO_iff, skywave_notBlocked_iff]
  refine ⟨by norm_num, by norm_num, by norm_num, ?_,
    le_trans (le_of_lt skip_lt_600) (by norm_num), ?_⟩
  · unfold hfModel.muf_secant_MHz hfModel.takeoff_angle_rad_from_range hfModel.H_F2_KM
    rw [(by norm_num : max (1000 : ℝ) 1e-6 = 1000),
      (by norm_num : max (300 : ℝ) 1e-3 = 300), Real.cos_arctan, one_div_one_div]
    have h : (7.1 : ℝ) / 6 ≤ Real.sqrt (1 + (1000 / (2 * 300)) ^ 2) := by
      rw [Real.le_sqrt (by norm_num) (by positivity)]
      norm_num
    nlinarith [h]
  · rw [skywaveHops_eq_one 1000 (by norm_num)]
    norm_num

lemma solveHF_scenario_IONO :
    (hfModel.solveHF scenarioTx scenarioRx scenarioEnv scenarioCtx).mode = .IONO := by
  have h := skywave_scenario_IONO
  norm_num at h
  simp only [hfModel.solveHF, scenarioTx, scenarioRx, scenarioEnv, scenarioCtx,
    Option.map_some', Option.getD_some]
  rw [(by norm_num : max (1000 : ℝ) 0.001 = 1000)]
  norm_num [h]
  split_ifs <;> simp_all

/-- C1 counterexample: on the code, the 7.1 MHz / foF2 6 MHz / 1000 km / auto
scenario is NOT blocked — the geometric takeoff angle is atan(1000/600), whose
secant is about 1.94, so the MUF is about 11.66 MHz and the gate passes. -/
theorem claim1_counterexample :
    (hfModel.solveHF scenarioTx scenarioRx scenarioEnv scenarioCtx).mode ≠ .BLOCKED ∧
      (predictLink scenarioTx scenarioRx scenarioEnv scenarioCtx).mode ≠ .BLOCKED := by
  have hfreq : scenarioTx.frequency_MHz = 7.1 := rfl
  constructor
  · simp [solveHF_scenario_IONO]
  · have hmode : (predictLink scenarioTx scenarioRx scenarioEnv scenarioCtx).mode =
        (hfModel.solveHF scenarioTx scenarioRx scenarioEnv scenarioCtx).mode := by
      simp only [predictLink, predictPath, hfreq]
      norm_num
    rw [hmode]
    simp [solveHF_scenario_IONO]

/-- C1 amended: for the scenario of the claim (7.1 MHz, foF2 6 MHz, NVIS
disabled, 1000 km, auto mode), solveHF and predictLink return mode IONO:
the code computes the takeoff angle geometrically as atan(d / (2 * 300)),
so the MUF is foF2 times sqrt(1 + (5/3)^2), about 11.66 MHz, above 7.1 MHz. -/
theorem claim1_amended :
    (hfModel.solveHF scenarioTx scenarioRx scenarioEnv scenarioCtx).mode = .IONO ∧
      (predictLink scenarioTx scenarioRx scenarioEnv scenarioCtx).mode = .IONO := by
  have hfreq : scenarioTx.frequency_MHz = 7.1 := rfl
  refine ⟨solveHF_scenario_IONO, ?_⟩
  have hmode : (predictLink scenarioTx scenarioRx scenarioEnv scenarioCtx).mode =
      (hfModel.solveHF scenarioTx scenarioRx scenarioEnv scenarioCtx).mode := by
    simp only [predictLink, predictPath, hfreq]
    norm_num
  rw [hmode, solveHF_scenario_IONO]

/-- C3: evaluation at the failing input d = 4000 km, f = 7 MHz, foF2 = 6 MHz.
Any fixed-takeoff-angle reading of the spec needs more than two hops for
4000 km, yet the code returns IONO with a finite loss: its geometric takeoff
angle makes the hop count identically 1, so the greater-than-two-hops cut is
unreachable. -/
theorem claim3_cap_dead_at_4000km :
    (hfModel.skywave_loss_dB 4000 7 6).mode = .IONO ∧ hfModel.skywaveHops 4000 = 1 := by
  refine ⟨?_, skywaveHops_eq_one 4000 (by norm_num)⟩
  rw [skywave_IONO_iff, skywave_notBlocked_iff]
  refine ⟨by norm_num, by norm_num, by norm_num, ?_,
    le_trans (le_of_lt skip_lt_600) (by norm_num), ?_⟩
  · unfold hfModel.muf_secant_MHz hfModel.takeoff_angle_rad_from_range hfModel.H_F2_KM
    rw [(by norm_num : max (4000 : ℝ) 1e-6 = 4000),
      (by norm_num : max (300 : ℝ) 1e-3 = 300), Real.cos_arctan, one_div_one_div]
    have h : (7 : ℝ) / 6 ≤ Real.sqrt (1 + (4000 / (2 * 300)) ^ 2) := by
      rw [Real.le_sqrt (by norm_num) (by positivity)]
      norm_num
    nlinarith [h]
  · rw [skywaveHops_eq_one 4000 (by norm_num)]
    norm_num

/-- C5: below both the two-slope breakpoint and the lower edge of the blend
band, the V/UHF loss is exactly the free-space loss
32.44 + 20 log10 d + 20 log10 f, for every environment and foliage depth. -/
theorem claim5_free_space_floor (tx : Tx) (rx : Rx) (env : Env) (hfc : Option HFContext)
    (raw : ℝ) (hfreq : 30 ≤ tx.frequency_MHz) (hraw : 0.001 ≤ raw)
    (hbp : raw * 1000 ≤ vuhfModel.d_bp_m tx.frequency_MHz tx.height_m rx.height_m)
    (hlo : raw ≤ vuhfModel.vuhfDH tx rx env * (1 - 0.05)) :
    (vuhfModel.solveVuhf tx rx env ⟨raw, hfc⟩).loss_dB =
      32.44 + 20 * log10 raw + 20 * log10 tx.frequency_MHz := by
  have hproj : (vuhfModel.solveVuhf tx rx env ⟨raw, hfc⟩).loss_dB =
      vuhfModel.vuhfLoss tx rx env (max raw 0.001) := rfl
  rw [hproj, max_eq_left hraw]
  have hblend : vuhfModel.vuhfBlend tx rx env raw = 0 := by
    simp only [vuhfModel.vuhfBlend]
    rw [if_pos hlo]
  unfold vuhfModel.vuhfLoss
  rw [hblend]
  simp only [sub_zero, one_mul, zero_mul, add_zero]
  unfold vuhfModel.vuhfLlos vuhfModel.twoSlope_dB
  have hdm : max (raw * 1000) 1 = raw * 1000 := max_eq_left (by nlinarith)
  rw [hdm, if_pos hbp]
  unfold vuhfModel.fspl_dB
  rw [mul_div_assoc]
  rw [(by norm_num : (1000 : ℝ) / 1000 = 1), mul_one,
    max_eq_left (by linarith : (1e-6 : ℝ) ≤ raw),
    max_eq_left (by linarith : (1e-6 : ℝ) ≤ tx.frequency_MHz)]
  ring

def scenarioVTx : Tx := ⟨0, 0, 10, 5, 1, 30, 146⟩

def scenarioVEnv : Env := ⟨.forest, 1.33, .dry, some 20⟩

/-- Witness for C5: 146 MHz, heights 30 m and 1.5 m, 10 m distance, forest
environment with 20 m of foliage — the loss is still pure free space. -/
theorem claim5_witness :
    (30 : ℝ) ≤ (scenarioVTx.frequency_MHz) ∧ (0.001 : ℝ) ≤ 0.01 ∧
      0.01 * 1000 ≤ vuhfModel.d_bp_m scenarioVTx.frequency_MHz scenarioVTx.height_m
        scenarioRx.height_m ∧
      (0.01 : ℝ) ≤ vuhfModel.vuhfDH scenarioVTx scenarioRx scenarioVEnv * (1 - 0.05) ∧
      (vuhfModel.solveVuhf scenarioVTx scenarioRx scenarioVEnv ⟨0.01, none⟩).loss_dB =
        32.44 + 20 * log10 0.01 + 20 * log10 scenarioVTx.frequency_MHz := by
  have h1 : (30 : ℝ) ≤ scenarioVTx.frequency_MHz := by norm_num [scenarioVTx]
  have h2 : (0.001 : ℝ) ≤ 0.01 := by norm_num
  have h3 : (0.01 : ℝ) * 1000 ≤ vuhfModel.d_bp_m scenarioVTx.frequency_MHz
      scenarioVTx.height_m scenarioRx.height_m := by
    have hl : lambda_m 146 = 2.99792458e8 / (146 * 1e6) := by
      unfold lambda_m
      rw [max_eq_left (by norm_num)]
    have hml : max (lambda_m 146) 1e-6 = lambda_m 146 :=
      max_eq_left (by rw [hl]; norm_num)
    show (0.01 : ℝ) * 1000 ≤ vuhfModel.d_bp_m 146 30 1.5
    unfold vuhfModel.d_bp_m
    rw [hml]
    refine le_max_of_le_left ?_
    rw [hl]
    norm_num
  have h4 : (0.01 : ℝ) ≤ vuhfModel.vuhfDH scenarioVTx scenarioRx scenarioVEnv * (1 - 0.05) := by
    show (0.01 : ℝ) ≤ horizon_km 30 1.5 1.33 * (1 - 0.05)
    unfold horizon_km
    have hs1 : (1 : ℝ) ≤ Real.sqrt (2 * 1.33 * 6371 * (30 / 1000)) := by
      rw [show (1 : ℝ) = Real.sqrt 1 from (Real.sqrt_one).symm]
      exact Real.sqrt_le_sqrt (by norm_num)
    have hs2 : (0 : ℝ) ≤ Real.sqrt (2 * 1.33 * 6371 * (1.5 / 1000)) := Real.sqrt_nonneg _
    nlinarith [hs1, hs2]
  exact ⟨h1, h2, h3, h4, claim5_free_space_floor scenarioVTx scenarioRx scenarioVEnv none
    0.01 h1 h2 h3 h4⟩

/- -----------------------------------------------------------------
   C2: continuity of the V/UHF loss across the horizon handover
   ----------------------------------------------------------------- -/

lemma continuous_log10_comp {g : ℝ → ℝ} (hg : Continuous g) (hpos : ∀ x, 0 < g x) :
    Continuous fun x => log10 (g x) := by
  unfold log10
  exact (hg.log fun x => ne_of_gt (hpos x)).div_const _

lemma d_bp_pos (f ht hr : ℝ) : 0 < vuhfModel.d_bp_m f ht hr :=
  lt_of_lt_of_le one_pos (le_max_right _ _)

lemma twoSlope_eq (d f ht hr : ℝ) :
    vuhfModel.twoSlope_dB d f ht hr =
      vuhfModel.fspl_dB (min (max (d * 1000) 1) (vuhfModel.d_bp_m f ht hr) / 1000) f +
        40 * log10 (max (max (d * 1000) 1 / vuhfModel.d_bp_m f ht hr) 1) := by
  simp only [vuhfModel.twoSlope_dB]
  have hbp := d_bp_pos f ht hr
  split_ifs with h
  · rw [min_eq_left h, max_eq_right ((div_le_one hbp).mpr h), log10_one, mul_zero, add_zero]
  · push_neg at h
    rw [min_eq_right h.le, max_eq_left ((one_le_div hbp).mpr h.le)]

lemma twoSlope_continuous (f ht hr : ℝ) :
    Continuous fun d => vuhfModel.twoSlope_dB d f ht hr := by
  simp only [twoSlope_eq]
  have hinner : Continuous fun d : ℝ =>
      min (max (d * 1000) 1) (vuhfModel.d_bp_m f ht hr) / 1000 :=
    (((continuous_id.mul continuous_const).max continuous_const).min
      continuous_const).div_const _
  have hquot : Continuous fun d : ℝ =>
      max (d * 1000) 1 / vuhfModel.d_bp_m f ht hr :=
    ((continuous_id.mul continuous_const).max continuous_const).div_const _
  apply Continuous.add
  · unfold vuhfModel.fspl_dB
    apply Continuous.add
    apply Continuous.add
    · exact continuous_const.mul (continuous_log10_comp (hinner.max continuous_const)
        fun x => lt_of_lt_of_le (by norm_num : (0 : ℝ) < 1e-6) (le_max_right _ _))
    · exact continuous_const
    · exact continuous_const
  · exact continuous_const.mul (continuous_log10_comp (hquot.max continuous_const)
      fun x => lt_of_lt_of_le (by norm_num : (0 : ℝ) < 1) (le_max_right _ _))

lemma hata_affine (f ht hr : ℝ) (env : EnvironmentClass) (d : ℝ) :
    vuhfModel.hata_dB d f ht hr env =
      (69.55 + 26.16 * log10 f - 13.82 * log10 (min (max ht 30) 200) -
          (if 300 ≤ f ∧ f ≤ 1500 ∧ env = .urban then
            8.29 * log10 (1.54 * min (max hr 1) 10) ^ 2 - 1.1
          else (1.1 * log10 f - 0.7) * min (max hr 1) 10 - (1.56 * log10 f - 0.8)) +
          (if env = .urban then 3 else 0) +
          (if env = .open_ ∨ env = .rural ∨ env = .water ∨ env = .mountain then
            -(4.78 * log10 f ^ 2 - 18.33 * log10 f + 40.94)
          else 0)) +
        (44.9 - 6.55 * log10 (min (max ht 30) 200)) * log10 (min (max d 1) 20) := by
  unfold vuhfModel.hata_dB
  ring

lemma hata_continuous (f ht hr : ℝ) (env : EnvironmentClass) :
    Continuous fun d => vuhfModel.hata_dB d f ht hr env := by
  simp only [hata_affine]
  refine Continuous.add continuous_const (Continuous.mul continuous_const ?_)
  exact continuous_log10_comp ((continuous_id.max continuous_const).min continuous_const)
    fun x => lt_of_lt_of_le one_pos (le_min (le_max_right _ _) (by norm_num))

lemma logDistance_continuous (f n d0 : ℝ) (hd0 : 0 < d0) :
    Continuous fun d => vuhfModel.logDistance_dB d f n d0 := by
  unfold vuhfModel.logDistance_dB
  refine Continuous.add continuous_const (Continuous.mul continuous_const ?_)
  exact continuous_log10_comp ((continuous_id.max continuous_const).div_const _)
    fun x => div_pos (lt_of_lt_of_le (by norm_num) (le_max_right _ _)) hd0

lemma vuhfLmed_continuous (tx : Tx) (rx : Rx) (env : Env) :
    Continuous fun d => vuhfModel.vuhfLmed tx rx env d := by
  unfold vuhfModel.vuhfLmed
  by_cases h : vuhfModel.hata_applicable tx.frequency_MHz
  · simp only [if_pos h]
    exact hata_continuous _ _ _ _
  · simp only [if_neg h]
    exact logDistance_continuous _ _ _ (by norm_num)

lemma vuhfLnlos_continuous (tx : Tx) (rx : Rx) (env : Env) :
    Continuous fun d => vuhfModel.vuhfLnlos tx rx env d := by
  unfold vuhfModel.vuhfLnlos
  exact (vuhfLmed_continuous tx rx env).add continuous_const

lemma vuhfLlos_continuous (tx : Tx) (rx : Rx) :
    Continuous fun d => vuhfModel.vuhfLlos tx rx d := by
  unfold vuhfModel.vuhfLlos
  exact twoSlope_continuous _ _ _

lemma vuhfBlend_eq (tx : Tx) (rx : Rx) (env : Env)
    (h : 0.001 ≤ vuhfModel.vuhfDH tx rx env) (d : ℝ) :
    vuhfModel.vuhfBlend tx rx env d =
      max 0 (min 1 ((d - vuhfModel.vuhfDH tx rx env * (1 - 0.05)) /
        (vuhfModel.vuhfDH tx rx env * (1 + 0.05) -
          vuhfModel.vuhfDH tx rx env * (1 - 0.05)))) := by
  simp only [vuhfModel.vuhfBlend]
  set dH := vuhfModel.vuhfDH tx rx env with hdH
  have hden_pos : 0 < dH * (1 + 0.05) - dH * (1 - 0.05) := by nlinarith
  have hmax : max (dH * (1 + 0.05) - dH * (1 - 0.05)) 1e-6 =
      dH * (1 + 0.05) - dH * (1 - 0.05) := max_eq_left (by nlinarith)
  split_ifs with h1 h2
  · have hr : (d - dH * (1 - 0.05)) /
        (dH * (1 + 0.05) - dH * (1 - 0.05)) ≤ 0 :=
      div_nonpos_iff.mpr (Or.inr ⟨by linarith, le_of_lt hden_pos⟩)
    rw [min_eq_right (le_trans hr zero_le_one), max_eq_left hr]
  · have hr : 1 ≤ (d - dH * (1 - 0.05)) /
        (dH * (1 + 0.05) - dH * (1 - 0.05)) :=
      (one_le_div hden_pos).mpr (by linarith)
    rw [min_eq_left hr, max_eq_right zero_le_one]
  · push_neg at h1 h2
    rw [hmax]
    have hr0 : 0 ≤ (d - dH * (1 - 0.05)) /
        (dH * (1 + 0.05) - dH * (1 - 0.05)) :=
      le_of_lt (div_pos (by linarith) hden_pos)
    have hr1 : (d - dH * (1 - 0.05)) /
        (dH * (1 + 0.05) - dH * (1 - 0.05)) ≤ 1 :=
      (div_le_one hden_pos).mpr (by linarith)
    rw [min_eq_right hr1, max_eq_right hr0]

lemma vuhfBlend_continuous (tx : Tx) (rx : Rx) (env : Env)
    (h : 0.001 ≤ vuhfModel.vuhfDH tx rx env) :
    Continuous (vuhfModel.vuhfBlend tx rx env) := by
  have heq : vuhfModel.vuhfBlend tx rx env = fun d =>
      max 0 (min 1 ((d - vuhfModel.vuhfDH tx rx env * (1 - 0.05)) /
        (vuhfModel.vuhfDH tx rx env * (1 + 0.05) -
          vuhfModel.vuhfDH tx rx env * (1 - 0.05)))) :=
    funext (vuhfBlend_eq tx rx env h)
  rw [heq]
  exact continuous_const.max
    (continuous_const.min ((continuous_id.sub continuous_const).div_const _))

lemma vuhfLoss_continuous (tx : Tx) (rx : Rx) (env : Env)
    (h : 0.001 ≤ vuhfModel.vuhfDH tx rx env) :
    Continuous (vuhfModel.vuhfLoss tx rx env) := by
  unfold vuhfModel.vuhfLoss
  exact ((continuous_const.sub (vuhfBlend_continuous tx rx env h)).mul
      (vuhfLlos_continuous tx rx)).add
    ((vuhfBlend_continuous tx rx env h).mul
      ((vuhfLnlos_continuous tx rx env).add continuous_const))

def tx2 : Tx := ⟨0, 0, 10, 0, 0, 0, 30⟩

def rx2 : Rx := ⟨0, 0, 0, 20000, 5, 10⟩

def env2 : Env := ⟨.open_, 1.33, .dry, none⟩

lemma log10_small_pow5 : log10 (1e-5 : ℝ) = -5 := by
  unfold log10
  rw [show (1e-5 : ℝ) = 10 ^ (-5 : ℤ) by norm_num, Real.log_zpow, mul_div_assoc,
    div_self (ne_of_gt (Real.log_pos (by norm_num))), mul_one]
  norm_num

lemma log10_small_pow2 : log10 (1e-2 : ℝ) = -2 := by
  unfold log10
  rw [show (1e-2 : ℝ) = 10 ^ (-2 : ℤ) by norm_num, Real.log_zpow, mul_div_assoc,
    div_self (ne_of_gt (Real.log_pos (by norm_num))), mul_one]
  norm_num

/-- C2 counterexample: with both antenna heights 0 (allowed by the claim,
which only requires heights at least 0), the horizon is 0, below the 0.001 km
floor used when the offset is computed, and the shifted NLOS candidate does
NOT meet the LOS candidate at the horizon: they differ by 63 dB at 30 MHz in
the open environment. -/
theorem claim2_counterexample :
    vuhfModel.vuhfLnlos tx2 rx2 env2 (vuhfModel.vuhfDH tx2 rx2 env2) +
        vuhfModel.vuhfDelta tx2 rx2 env2 ≠
      vuhfModel.vuhfLlos tx2 rx2 (vuhfModel.vuhfDH tx2 rx2 env2) := by
  have hdH : vuhfModel.vuhfDH tx2 rx2 env2 = 0 := by
    show horizon_km 0 0 1.33 = 0
    unfold horizon_km
    simp
  have hfol : vuhfModel.foliageAdd env2 tx2.frequency_MHz = 0 := rfl
  have hnotapp : ¬vuhfModel.hata_applicable tx2.frequency_MHz := by
    show ¬vuhfModel.hata_applicable (30 : ℝ)
    norm_num [vuhfModel.hata_applicable]
  have h30 : tx2.frequency_MHz = 30 := rfl
  have hLn : ∀ d : ℝ, vuhfModel.vuhfLnlos tx2 rx2 env2 d =
      vuhfModel.fspl_dB (max 0.1 1e-4) 30 + 10 * 2.1 * log10 (max d 1e-6 / 0.1) := by
    intro d
    unfold vuhfModel.vuhfLnlos
    rw [hfol, add_zero]
    unfold vuhfModel.vuhfLmed
    rw [if_neg hnotapp]
    have he : vuhfModel.envToN env2.environment = 2.1 := rfl
    rw [he, h30]
    rfl
  have hLlos : vuhfModel.vuhfLlos tx2 rx2 0.001 = vuhfModel.vuhfLlos tx2 rx2 0 := by
    unfold vuhfModel.vuhfLlos vuhfModel.twoSlope_dB
    rw [show max ((0.001 : ℝ) * 1000) 1 = 1 by
        rw [(by norm_num : (0.001 : ℝ) * 1000 = 1)]
        exact max_self 1,
      show max ((0 : ℝ) * 1000) 1 = 1 by
        rw [zero_mul]
        exact max_eq_right zero_le_one]
  rw [hdH]
  unfold vuhfModel.vuhfDelta
  rw [hdH, (by norm_num : max (0 : ℝ) 0.001 = 0.001), ← hLlos]
  intro heq
  have hne : vuhfModel.vuhfLnlos tx2 rx2 env2 0 = vuhfModel.vuhfLnlos tx2 rx2 env2 0.001 := by
    linarith
  rw [hLn 0, hLn 0.001, (by norm_num : max (0 : ℝ) 1e-6 = 1e-6),
    (by norm_num : max (0.001 : ℝ) 1e-6 = 0.001),
    (by norm_num : (1e-6 : ℝ) / 0.1 = 1e-5),
    (by norm_num : (0.001 : ℝ) / 0.1 = 1e-2), log10_small_pow5, log10_small_pow2] at hne
  linarith

/-- C2 amended: whenever the radio horizon is at least the 0.001 km distance
floor, the NLOS candidate shifted by the constant offset equals the LOS
candidate exactly at the horizon, and the V/UHF loss is a continuous function
of the raw distance (hence continuous at the horizon, with no jump anywhere
across the blend band). -/
theorem claim2_amended (tx : Tx) (rx : Rx) (env : Env)
    (h : 0.001 ≤ vuhfModel.vuhfDH tx rx env) :
    vuhfModel.vuhfLnlos tx rx env (vuhfModel.vuhfDH tx rx env) +
        vuhfModel.vuhfDelta tx rx env =
      vuhfModel.vuhfLlos tx rx (vuhfModel.vuhfDH tx rx env) ∧
    ∀ hfc : Option HFContext,
      Continuous fun raw : ℝ =>
        (vuhfModel.solveVuhf tx rx env ⟨raw, hfc⟩).loss_dB := by
  constructor
  · unfold vuhfModel.vuhfDelta
    rw [max_eq_left h]
    ring
  · intro hfc
    have hproj : (fun raw : ℝ => (vuhfModel.solveVuhf tx rx env ⟨raw, hfc⟩).loss_dB) =
        fun raw : ℝ => vuhfModel.vuhfLoss tx rx env (max raw 0.001) := rfl
    rw [hproj]
    exact (vuhfLoss_continuous tx rx env h).comp (continuous_id.max continuous_const)

/-- Witness for C2: at 146 MHz with heights 30 m and 1.5 m the horizon is
above the floor, the curves meet exactly at the horizon, and the loss is
continuous in distance. -/
theorem claim2_witness :
    (0.001 : ℝ) ≤ vuhfModel.vuhfDH scenarioVTx scenarioRx scenarioVEnv ∧
      (vuhfModel.vuhfLnlos scenarioVTx scenarioRx scenarioVEnv
            (vuhfModel.vuhfDH scenarioVTx scenarioRx scenarioVEnv) +
          vuhfModel.vuhfDelta scenarioVTx scenarioRx scenarioVEnv =
        vuhfModel.vuhfLlos scenarioVTx scenarioRx
          (vuhfModel.vuhfDH scenarioVTx scenarioRx scenarioVEnv) ∧
      ∀ hfc : Option HFContext,
        Continuous fun raw : ℝ =>
          (vuhfModel.solveVuhf scenarioVTx scenarioRx scenarioVEnv ⟨raw, hfc⟩).loss_dB) := by
  have h : (0.001 : ℝ) ≤ vuhfModel.vuhfDH scenarioVTx scenarioRx scenarioVEnv := by
    show (0.001 : ℝ) ≤ horizon_km 30 1.5 1.33
    unfold horizon_km
    have hs1 : (1 : ℝ) ≤ Real.sqrt (2 * 1.33 * 6371 * (30 / 1000)) := by
      rw [show (1 : ℝ) = Real.sqrt 1 from Real.sqrt_one.symm]
      exact Real.sqrt_le_sqrt (by norm_num)
    nlinarith [Real.sqrt_nonneg (2 * 1.33 * 6371 * (1.5 / 1000))]
  exact ⟨h, claim2_amended scenarioVTx scenarioRx scenarioVEnv h⟩

end Iono
